import Mathlib

/-!
Shallow embedding of the Lab402 optimizer/router subsystem.

Source files embedded here:
- src/lib/CostOptimizer.ts  (class CostOptimizer)
- src/lib/Router.ts         (class Router)
- src/lib/Analysis.ts       (class LabRegistry, lines 300-354)
- src/unnamed/part_012      (class BatchManager, calculateBatchPricing)
- src/unnamed/part_002      (cost-optimizer-types), part_007 (router types)

Modelling conventions:
- JavaScript numbers are modelled as rationals (ℚ).  Every claim settled
  below is an exact arithmetic identity or inequality; ℚ keeps them exact.
  Division by zero in JS yields Infinity where ℚ yields 0; this matters
  only for degenerate zero-cost / zero-time catalog entries and is noted
  at the definitions concerned.
- JS records indexed by instrument (lab.pricing, lab.eta) are association
  lists; a missing key reads as the neutral value (0 resp. ""), matching
  every use site (truthiness tests and `|| 0`).  JS crashes on a missing
  eta entry inside parseTime; the model reads "" there (parseTime "" = 0),
  which only diverges on catalogs violating the documented invariant that
  a provider has an eta for every instrument it offers.
- `Array.prototype.sort` is stable (ES2019); it is modelled by a stable
  insertion sort on the comparator key.
- Fallible paths (JS reduce on an empty array, indexing past the end,
  reading a field of undefined) are modelled with Option: `none` means the
  call throws and returns no result.
-/

namespace Lab402

/-! ## Generic list machinery -/

/-- Stable insert for a descending-by-key sort: x goes before the first
element with a strictly smaller key, hence after earlier equal keys. -/
def insertDescBy {α : Type} (key : α → ℚ) (x : α) : List α → List α
  | [] => [x]
  | y :: ys => if key x < key y then y :: insertDescBy key x ys else x :: y :: ys

/-- Stable sort, descending by key: the model of JS
`arr.sort((a, b) => b.key - a.key)`. -/
def sortDescBy {α : Type} (key : α → ℚ) : List α → List α
  | [] => []
  | x :: xs => insertDescBy key x (sortDescBy key xs)

/-- Stable insert for an ascending-by-key sort. -/
def insertAscBy {α : Type} (key : α → ℚ) (x : α) : List α → List α
  | [] => [x]
  | y :: ys => if key y < key x then y :: insertAscBy key x ys else x :: y :: ys

/-- Stable sort, ascending by key: the model of JS
`arr.sort((a, b) => a.key - b.key)`. -/
def sortAscBy {α : Type} (key : α → ℚ) : List α → List α
  | [] => []
  | x :: xs => insertAscBy key x (sortAscBy key xs)

/-! ## String utilities

JS `String.prototype.includes` is a substring test; we model it over
character lists. -/

/-- `startsWithL pat s` holds when `s` begins with `pat`. -/
def startsWithL : List Char → List Char → Bool
  | [], _ => true
  | _ :: _, [] => false
  | p :: ps, c :: cs => p == c && startsWithL ps cs

/-- `containsSub pat s` holds when `pat` occurs contiguously inside `s`. -/
def containsSub : List Char → List Char → Bool
  | pat, [] => startsWithL pat []
  | pat, c :: cs => startsWithL pat (c :: cs) || containsSub pat cs

/-- Model of JS `s.includes(sub)`. -/
def strIncludes (s sub : String) : Bool := containsSub sub.toList s.toList

/-! ## parseTime — CostOptimizer.ts lines 485-500

`private parseTime(timeStr)`: first regex match of `/(\d+)([smhd])/`
anywhere in the string; no match → 0 ms.  A match starts at the first
position holding a maximal digit run whose following character is a
unit letter. -/

def digitsVal (ds : List Char) : ℚ :=
  ((ds.foldl (fun a c => a * 10 + (c.toNat - 48)) 0 : Nat) : ℚ)

def isTimeUnit (c : Char) : Bool := c == 's' || c == 'm' || c == 'h' || c == 'd'

/-- Multipliers table of parseTime (ms per unit). -/
def unitMultiplier (c : Char) : ℚ :=
  if c = 's' then 1000
  else if c = 'm' then 60000
  else if c = 'h' then 3600000
  else if c = 'd' then 86400000
  else 0

/-- Scan for the first `(\d+)([smhd])` match. (Advancing one character
after a failed digit run is equivalent to skipping the run: every proper
suffix of the run is followed by the same non-unit character.) -/
def findTimeMatch : List Char → Option (ℚ × Char)
  | [] => none
  | c :: cs =>
    if c.isDigit then
      match (c :: cs).dropWhile Char.isDigit with
      | u :: _ =>
        if isTimeUnit u then some (digitsVal ((c :: cs).takeWhile Char.isDigit), u)
        else findTimeMatch cs
      | [] => none
    else findTimeMatch cs

/-- CostOptimizer.parseTime: time string → milliseconds. -/
def parseTime (timeStr : String) : ℚ :=
  match findTimeMatch timeStr.toList with
  | none => 0
  | some (v, u) => v * unitMultiplier u

/-! ## Data model

Catalog entry types.  The optimizer's `Lab` mirrors the interface at
CostOptimizer.ts lines 14-23; the concrete objects handed to the
constructor are the registry's `LabInfo` records, which also carry a
`country` code (part_007 line 160) that `filterLabs` never reads — the
field is kept so the location-criterion claims can mention it. -/

structure Lab where
  id : String
  name : String
  location : String
  country : String
  quality : ℚ
  pricing : List (String × ℚ)
  certifications : List String
  averageLoad : ℚ
  eta : List (String × String)
deriving DecidableEq

/-- CostOptimizer.ts lines 25-31 (pricing.perSample, parameters.accuracy,
requirements flattened). -/
structure AIModel where
  id : String
  name : String
  perSample : ℚ
  accuracy : ℚ
  minGPU : ℚ
  minVRAM : ℚ
deriving DecidableEq

/-- CostOptimizer.ts lines 33-38. -/
structure ComputeTier where
  name : String
  gpu : ℚ
  vram : ℚ
  costPerMs : ℚ
deriving DecidableEq

/-- part_002 lines 5-12.  `priority` is a required field; the optional
numeric bounds model JS `undefined` as `none`. -/
structure OptimizationConstraints where
  maxCost : Option ℚ
  minQuality : Option ℚ
  maxTime : Option String
  priority : String
  preferredLocations : Option (List String)
  requireCertifications : Option (List String)
deriving DecidableEq

/-- part_002 lines 100-107. -/
structure OptimizationRequest where
  instrument : String
  samples : ℚ
  sampleType : Option String
  constraints : OptimizationConstraints
  includeAlternatives : Bool
  includeWhatIf : Bool
deriving DecidableEq

/-- JS record read `lab.pricing[instrument]`: a missing key reads 0
(matching both the truthiness guards and the explicit `|| 0`). -/
def priceOf (lab : Lab) (instrument : String) : ℚ :=
  (List.lookup instrument lab.pricing).getD 0

/-- JS record read `lab.eta[instrument]`; missing keys read "". -/
def etaOf (lab : Lab) (instrument : String) : String :=
  (List.lookup instrument lab.eta).getD ""

/-- JS truthiness of an optional numeric constraint: `undefined` and `0`
are both falsy. -/
def optTruthy (o : Option ℚ) : Bool :=
  match o with
  | none => false
  | some x => decide (x ≠ 0)

def optVal (o : Option ℚ) : ℚ := o.getD 0

/-! ## CostOptimizer filters — CostOptimizer.ts lines 128-190 -/

/-- Body of the `filterLabs` predicate (lines 129-155): offers the
instrument (truthy price); quality floor and cost ceiling only when the
constraint is truthy; location list, when present and non-empty, must
have some entry occurring as a substring of the free-form `location`
string; certification list, when present and non-empty, must be wholly
contained in the lab's certifications. -/
def labPasses (instrument : String) (c : OptimizationConstraints) (lab : Lab) : Bool :=
  decide (priceOf lab instrument ≠ 0) &&
  !(optTruthy c.minQuality && decide (lab.quality < optVal c.minQuality)) &&
  !(optTruthy c.maxCost && decide (priceOf lab instrument > optVal c.maxCost)) &&
  (match c.preferredLocations with
   | some (loc :: locs) => (loc :: locs).any (fun l => strIncludes lab.location l)
   | _ => true) &&
  (match c.requireCertifications with
   | some (ct :: cts) => (ct :: cts).all (fun cert => lab.certifications.contains cert)
   | _ => true)

def filterLabs (labs : List Lab) (instrument : String)
    (c : OptimizationConstraints) : List Lab :=
  labs.filter (labPasses instrument c)

/-- Body of the `filterAIModels` predicate (lines 162-175): per-sample
cost ceiling and accuracy floor (normalized /20), each only when the
constraint is truthy. -/
def modelPasses (c : OptimizationConstraints) (m : AIModel) : Bool :=
  !(optTruthy c.maxCost && decide (m.perSample > optVal c.maxCost)) &&
  !(optTruthy c.minQuality && decide (m.accuracy / 20 < optVal c.minQuality))

def filterAIModels (ais : List AIModel) (c : OptimizationConstraints) : List AIModel :=
  ais.filter (modelPasses c)

/-- `selectComputeTier` (lines 180-190): positional lookup by priority.
Indexing past the end of the tier list is a JS undefined that crashes
downstream; modelled as `none`. -/
def selectComputeTier (tiers : List ComputeTier)
    (c : OptimizationConstraints) : Option ComputeTier :=
  if c.priority = "cost" then tiers.get? 0
  else if c.priority = "speed" then tiers.get? 2
  else tiers.get? 1

/-! ## Scoring — CostOptimizer.ts lines 195-249 -/

structure Combo where
  lab : Lab
  aiModel : AIModel
  cost : ℚ
  score : ℚ
deriving DecidableEq

/-- Total cost of one lab × model pair (lines 207-212): instrument cost +
AI per-sample cost + synthetic 3s/sample compute + $0.01/sample storage. -/
def comboCost (tier : ComputeTier) (instrument : String) (samples : ℚ)
    (lab : Lab) (m : AIModel) : ℚ :=
  priceOf lab instrument + m.perSample * samples +
    tier.costPerMs * 3000 * samples + 0.01 * samples

/-- Score of a pair by priority (lines 214-229).  JS divisions by zero
produce Infinity; in ℚ they produce 0, which only diverges on catalogs
with a zero total cost or zero parsed ETA. -/
def comboScore (c : OptimizationConstraints) (instrument : String)
    (lab : Lab) (m : AIModel) (totalCost : ℚ) : ℚ :=
  if c.priority = "cost" then 1 / totalCost
  else if c.priority = "speed" then 1 / parseTime (etaOf lab instrument)
  else if c.priority = "quality" then (lab.quality + m.accuracy / 20) / 2
  else
    ((1 / totalCost) * 1000 + (1 / parseTime (etaOf lab instrument)) * 0.001 +
      (lab.quality + m.accuracy / 20) / 2) / 3

/-- `scoreCombinations` (lines 195-237): full cross-product, then stable
sort descending by score. -/
def scoreCombinations (labs : List Lab) (ais : List AIModel) (tier : ComputeTier)
    (instrument : String) (samples : ℚ) (c : OptimizationConstraints) : List Combo :=
  sortDescBy Combo.score
    (labs.flatMap fun lab => ais.map fun m =>
      let totalCost := comboCost tier instrument samples lab m
      { lab := lab, aiModel := m, cost := totalCost,
        score := comboScore c instrument lab m totalCost })

/-- `calculateBatchDiscount` (lines 242-249): cumulative tier table. -/
def calculateBatchDiscount (samples : ℚ) : ℚ :=
  if samples ≥ 1000 then 0.30
  else if samples ≥ 500 then 0.25
  else if samples ≥ 100 then 0.20
  else if samples ≥ 50 then 0.15
  else if samples ≥ 10 then 0.10
  else 0

/-! ## Result shapes — part_002 lines 14-98 -/

structure LabSummary where
  id : String
  name : String
  cost : ℚ
  quality : ℚ
  eta : String
  location : String
deriving DecidableEq

structure AIModelSummary where
  id : String
  name : String
  costPerSample : ℚ
  accuracy : ℚ
deriving DecidableEq

structure ComputeSummary where
  tier : String
  gpu : ℚ
  vram : ℚ
  costPerMs : ℚ
deriving DecidableEq

structure BatchSummary where
  samples : ℚ
  discount : ℚ
  savings : ℚ
deriving DecidableEq

structure Totals where
  baseCost : ℚ
  discountedCost : ℚ
  totalSavings : ℚ
  estimatedTime : ℚ
  averageQuality : ℚ
deriving DecidableEq

structure OptimizationAlternative where
  description : String
  changes : List String
  cost : ℚ
  savings : ℚ
  quality : ℚ
  time : Option String
deriving DecidableEq

structure OptimizationResult where
  lab : LabSummary
  aiModel : AIModelSummary
  compute : ComputeSummary
  batch : Option BatchSummary
  totals : Totals
  alternatives : List OptimizationAlternative
deriving DecidableEq

/-- `generateAlternatives` (lines 254-287): combinations[1..3], each with
its discounted cost, savings vs the primary, quality, and the eta of the
first key of the alternative lab's pricing record
(`alt.lab.eta[Object.keys(alt.lab.pricing)[0]]`). -/
def generateAlternatives (combos : List Combo) (best : Combo) (samples : ℚ) :
    List OptimizationAlternative :=
  let discount := calculateBatchDiscount samples
  let bestCost := best.cost * (1 - discount)
  ((combos.drop 1).take 3).enum.map fun (i, alt) =>
    { description := "Alternative #" ++ toString (i + 1)
      changes :=
        (if alt.lab.id ≠ best.lab.id then
          ["Use " ++ alt.lab.name ++ " instead of " ++ best.lab.name] else []) ++
        (if alt.aiModel.id ≠ best.aiModel.id then
          ["Use " ++ alt.aiModel.name ++ " instead of " ++ best.aiModel.name] else [])
      cost := alt.cost * (1 - discount)
      savings := bestCost - alt.cost * (1 - discount)
      quality := (alt.lab.quality + alt.aiModel.accuracy / 20) / 2
      time :=
        match alt.lab.pricing.map Prod.fst with
        | [] => none
        | k :: _ => List.lookup k alt.lab.eta }

/-- The result record built at CostOptimizer.ts lines 84-120 once the
best combination exists.

Note line 115 of the source: `averageQuality` averages the raw 0-100
accuracy with the 1-5 lab quality, without the `/20` normalization used
by the quality score (line 222) and by generateAlternatives (line 281). -/
def mkOptResult (req : OptimizationRequest) (tier : ComputeTier)
    (best : Combo) (rest : List Combo) : OptimizationResult :=
  let discount := calculateBatchDiscount req.samples
  let savings := best.cost * discount
  { lab :=
      { id := best.lab.id
        name := best.lab.name
        cost := priceOf best.lab req.instrument
        quality := best.lab.quality
        eta := etaOf best.lab req.instrument
        location := best.lab.location }
    aiModel :=
      { id := best.aiModel.id
        name := best.aiModel.name
        costPerSample := best.aiModel.perSample
        accuracy := best.aiModel.accuracy }
    compute :=
      { tier := tier.name
        gpu := tier.gpu
        vram := tier.vram
        costPerMs := tier.costPerMs }
    batch :=
      if req.samples ≥ 10 then
        some { samples := req.samples, discount := discount * 100, savings := savings }
      else none
    totals :=
      { baseCost := best.cost
        discountedCost := best.cost - savings
        totalSavings := savings
        estimatedTime := parseTime (etaOf best.lab req.instrument)
        averageQuality := (best.lab.quality + best.aiModel.accuracy) / 2 }
    alternatives :=
      if req.includeAlternatives then
        generateAlternatives (best :: rest) best req.samples
      else [] }

/-- `optimize` (CostOptimizer.ts lines 54-123).  `none` models the JS
call throwing (an empty combination list makes `combinations[0]`
undefined and the result construction crash before anything is
returned; a too-short tier list crashes the same way). -/
def optimize (labs : List Lab) (ais : List AIModel) (tiers : List ComputeTier)
    (req : OptimizationRequest) : Option OptimizationResult :=
  let eligibleLabs := filterLabs labs req.instrument req.constraints
  let eligibleModels := filterAIModels ais req.constraints
  match selectComputeTier tiers req.constraints with
  | none => none
  | some tier =>
    match scoreCombinations eligibleLabs eligibleModels tier
        req.instrument req.samples req.constraints with
    | [] => none
    | best :: rest => some (mkOptResult req tier best rest)

/-! ## Savings estimate and price comparison — CostOptimizer.ts lines 323-446 -/

structure CostBreakdown where
  instrument : ℚ
  compute : ℚ
  ai : ℚ
  storage : ℚ
  subtotal : ℚ
  discount : ℚ
  total : ℚ
deriving DecidableEq

structure SavingsBlock where
  absolute : ℚ
  percentage : ℚ
deriving DecidableEq

structure SavingsEstimate where
  worstCase : CostBreakdown
  optimized : CostBreakdown
  savings : SavingsBlock
  recommendations : List String
deriving DecidableEq

/-- `calculateTotalCost` (lines 421-446).  Note it applies the batch
discount to its subtotal. -/
def calculateTotalCost (lab : Lab) (m : AIModel) (tier : ComputeTier)
    (instrument : String) (samples : ℚ) : CostBreakdown :=
  let instrumentCost := priceOf lab instrument
  let computeCost := tier.costPerMs * 3000 * samples
  let aiCost := m.perSample * samples
  let storageCost := 0.01 * samples
  let subtotal := instrumentCost + computeCost + aiCost + storageCost
  let discount := calculateBatchDiscount samples * subtotal
  { instrument := instrumentCost, compute := computeCost, ai := aiCost
    storage := storageCost, subtotal := subtotal, discount := discount
    total := subtotal - discount }

/-- JS `labs.reduce((max, lab) => (lab.pricing[i] || 0) > (max.pricing[i] || 0) ? lab : max)`
(lines 325-327): first maximum by instrument price; throws on an empty
array, modelled `none`. -/
def worstLab (labs : List Lab) (instrument : String) : Option Lab :=
  match labs with
  | [] => none
  | l :: ls =>
    some (ls.foldl
      (fun mx lab => if priceOf lab instrument > priceOf mx instrument then lab else mx) l)

/-- JS `aiModels.reduce(...)` on perSample (lines 328-330). -/
def worstAI (ais : List AIModel) : Option AIModel :=
  match ais with
  | [] => none
  | a :: rest =>
    some (rest.foldl (fun mx m => if m.perSample > mx.perSample then m else mx) a)

/-- `generateRecommendations` (lines 451-480).  The last guard
`!request.constraints.preferredLocations` is JS-falsy only for an absent
list (an empty array is truthy). -/
def generateRecommendations (result : OptimizationResult)
    (req : OptimizationRequest) : List String :=
  (if req.samples < 10 then
    ["Increase batch size to 10+ samples to get 10% discount"]
  else if req.samples < 50 then
    ["Increase batch size to 50+ samples to get 15% discount"]
  else []) ++
  (if result.aiModel.accuracy < 95 ∧ req.constraints.priority = "cost" then
    ["Consider higher accuracy AI model if quality is important"]
  else []) ++
  (if result.totals.estimatedTime > 3600000 then
    ["Consider using priority queue or faster lab for urgent analyses"]
  else []) ++
  (if req.constraints.preferredLocations = none then
    ["Specify preferred locations to reduce shipping time/cost"]
  else [])

/-- `estimateSavings` (lines 323-365): synthetic worst case (most
expensive lab for the instrument, most expensive model overall, last
compute tier) vs the optimizer's discounted result. -/
def estimateSavings (labs : List Lab) (ais : List AIModel)
    (tiers : List ComputeTier) (req : OptimizationRequest) : Option SavingsEstimate :=
  match worstLab labs req.instrument, worstAI ais, tiers.getLast? with
  | some wl, some wa, some wt =>
    let worstCost := calculateTotalCost wl wa wt req.instrument req.samples
    match optimize labs ais tiers req with
    | none => none
    | some opt =>
      let optimizedCost := opt.totals.discountedCost
      let savings := worstCost.total - optimizedCost
      some
        { worstCase := worstCost
          optimized :=
            { instrument := opt.lab.cost
              compute := opt.compute.costPerMs * 3000 * req.samples
              ai := opt.aiModel.costPerSample * req.samples
              storage := 0.01 * req.samples
              subtotal := opt.totals.baseCost
              discount := opt.totals.totalSavings
              total := optimizedCost }
          savings :=
            { absolute := savings
              percentage := savings / worstCost.total * 100 }
          recommendations := generateRecommendations opt req }
  | _, _, _ => none

structure PriceOption where
  name : String
  value : ℚ
  cost : ℚ
  selected : Bool
deriving DecidableEq

structure PriceComparison where
  metric : String
  options : List PriceOption
deriving DecidableEq

/-- `comparePrices` (lines 370-416): three tables built by mapping the
catalogs in their stored order (no sorting in the source), marking the
entries matching the optimizer's selection. -/
def comparePrices (labs : List Lab) (ais : List AIModel)
    (tiers : List ComputeTier) (req : OptimizationRequest) :
    Option (List PriceComparison) :=
  (optimize labs ais tiers req).map fun opt =>
    [ { metric := "Laboratory"
        options := (labs.filter (fun l => decide (priceOf l req.instrument ≠ 0))).map
          fun l =>
            { name := l.name, value := l.quality
              cost := priceOf l req.instrument
              selected := l.id == opt.lab.id } }
    , { metric := "AI Model"
        options := ais.map fun m =>
            { name := m.name, value := m.accuracy
              cost := m.perSample * req.samples
              selected := m.id == opt.aiModel.id } }
    , { metric := "Compute Tier"
        options := tiers.map fun t =>
            { name := t.name, value := t.gpu
              cost := t.costPerMs * 3000 * req.samples
              selected := t.name == opt.compute.tier } } ]

/-! ## Batch pricing — part_012 lines 19-61 (BatchManager) -/

structure BatchPricing where
  baseCost : ℚ
  totalSamples : ℚ
  discountRate : ℚ
  discountedCost : ℚ
  savings : ℚ
  perSampleCost : ℚ
deriving DecidableEq

/-- `calculateBatchPricing(instrument, sampleCount, basePrice)`: the tier
table at part_012 lines 27-39 is the same chain as
`calculateBatchDiscount`; the instrument argument is unused by the
computation. -/
def calculateBatchPricing (instrument : String) (sampleCount basePrice : ℚ) :
    BatchPricing :=
  let _ := instrument
  let baseCost := basePrice * sampleCount
  let discountRate :=
    if sampleCount ≥ 1000 then 0.30
    else if sampleCount ≥ 500 then 0.25
    else if sampleCount ≥ 100 then 0.20
    else if sampleCount ≥ 50 then 0.15
    else if sampleCount ≥ 10 then 0.10
    else 0
  let savings := baseCost * discountRate
  let discountedCost := baseCost - savings
  { baseCost := baseCost, totalSamples := sampleCount
    discountRate := discountRate, discountedCost := discountedCost
    savings := savings, perSampleCost := discountedCost / sampleCount }

/-! ## Router data model — part_007 lines 156-200 -/

structure PricingTier where
  tier : String
  instrumentRate : ℚ
  computeRate : ℚ
  aiRate : ℚ
  storageRate : ℚ
deriving DecidableEq

structure LabInfo where
  id : String
  name : String
  location : String
  country : String
  instruments : List String
  pricing : PricingTier
  quality : ℚ
  availability : ℚ
  uptime : ℚ
  currentLoad : ℚ
  coordinates : Option (ℚ × ℚ)
  certifications : List String
deriving DecidableEq

structure LabFallback where
  lab : String
  priority : ℚ
deriving DecidableEq

structure RoutingOptions where
  strategy : String
  maxCost : Option ℚ
  minQuality : Option ℚ
  maxDistance : Option ℚ
  preferredLocations : Option (List String)
  excludeLabs : Option (List String)
  requireCertifications : Option (List String)
  fallback : Option (List LabFallback)
deriving DecidableEq

structure LabSelection where
  lab : LabInfo
  score : ℚ
  reasoning : String
  alternatives : List LabInfo
deriving DecidableEq

/-! ## LabRegistry — Analysis.ts lines 300-354

The registry's Map is modelled as a list in insertion order (Map.values
iterates in insertion order; ids are unique since the Map is keyed by
id). -/

def getAllLabs (registry : List LabInfo) : List LabInfo := registry

def getLabsByInstrument (registry : List LabInfo) (instrument : String) : List LabInfo :=
  (getAllLabs registry).filter (fun lab => lab.instruments.contains instrument)

/-- `getAvailableLabs` (lines 325-329): supports the instrument,
availability > 0 and load < 90. -/
def getAvailableLabs (registry : List LabInfo) (instrument : String) : List LabInfo :=
  (getLabsByInstrument registry instrument).filter
    (fun lab => decide (lab.availability > 0) && decide (lab.currentLoad < 90))

def getLabById (registry : List LabInfo) (id : String) : Option LabInfo :=
  registry.find? (fun lab => lab.id == id)

/-! ## Router — Router.ts

`calculateDistance` (Analysis.ts lines 338-353) is the haversine formula
over trigonometric functions; the router model abstracts it as an
arbitrary function `dist : LabInfo → ℚ` standing for
`registry.calculateDistance(lab, userLocation.lat, userLocation.lon)`,
so every theorem below holds for the haversine distance in particular.
The source returns Infinity for a lab without coordinates; call sites
guard on `lab.coordinates` explicitly in the model. -/

/-- `estimateCost` (Router.ts lines 183-190): fixed synthetic workload. -/
def estimateCost (lab : LabInfo) : ℚ :=
  50 * lab.pricing.instrumentRate + 10 * lab.pricing.computeRate + lab.pricing.aiRate

/-- `applyFilters` (Router.ts lines 54-108): six independent filters in
fixed order; the numeric bounds here use `!== undefined` checks (not
truthiness), so 0 is a real bound.  A lab without coordinates has
infinite distance and fails any finite `maxDistance`. -/
def applyFilters (dist : LabInfo → ℚ) (userLocation : Option (ℚ × ℚ))
    (labs : List LabInfo) (routing : Option RoutingOptions) : List LabInfo :=
  match routing with
  | none => labs
  | some r =>
    let f1 := match r.maxCost with
      | none => labs
      | some mc => labs.filter (fun lab => decide (estimateCost lab ≤ mc))
    let f2 := match r.minQuality with
      | none => f1
      | some mq => f1.filter (fun lab => decide (lab.quality ≥ mq))
    let f3 := match r.maxDistance, userLocation with
      | some md, some _ =>
        f2.filter (fun lab =>
          match lab.coordinates with
          | none => false
          | some _ => decide (dist lab ≤ md))
      | _, _ => f2
    let f4 := match r.preferredLocations with
      | some (x :: xs) => f3.filter (fun lab => (x :: xs).contains lab.country)
      | _ => f3
    let f5 := match r.excludeLabs with
      | some (x :: xs) => f4.filter (fun lab => !((x :: xs).contains lab.id))
      | _ => f4
    match r.requireCertifications with
    | some (x :: xs) =>
      f5.filter (fun lab => (x :: xs).all (fun c => lab.certifications.contains c))
    | _ => f5

/-- `calculateScore` (Router.ts lines 125-181).  The unused `routing`
parameter of the source is dropped; unknown strategy strings fall into
the balanced default branch, as in the source switch. -/
def calculateScore (dist : LabInfo → ℚ) (userLocation : Option (ℚ × ℚ))
    (lab : LabInfo) (strategy : String) : ℚ :=
  if strategy = "cost-optimized" then 100 - estimateCost lab / 2
  else if strategy = "fastest" then (100 - lab.currentLoad) * 0.7 + lab.uptime * 0.3
  else if strategy = "highest-quality" then lab.quality * 20
  else if strategy = "nearest" then
    match userLocation, lab.coordinates with
    | some _, some _ => max 0 (100 - dist lab / 100)
    | _, _ => 50
  else
    (100 - estimateCost lab / 2) * 0.3 + (lab.quality * 20) * 0.3 +
      ((100 - lab.currentLoad) * 0.5 + lab.availability * 0.5) * 0.2 +
      lab.uptime * 0.2

/-- `selectByStrategy` (Router.ts lines 110-123): score every candidate,
stable-sort descending, take the first. -/
def selectByStrategy (dist : LabInfo → ℚ) (userLocation : Option (ℚ × ℚ))
    (labs : List LabInfo) (strategy : String) : Option LabInfo :=
  match sortDescBy Prod.snd
      (labs.map (fun lab => (lab, calculateScore dist userLocation lab strategy))) with
  | [] => none
  | p :: _ => some p.1

/-- `generateReasoning` (Router.ts lines 192-226).  Numeric interpolation
uses ℚ's toString rather than JS toFixed; no claim concerns this text. -/
def generateReasoning (lab : LabInfo) (strategy : String) : String :=
  let base :=
    if strategy = "cost-optimized" then
      ["Lowest cost at ~$" ++ toString (estimateCost lab)]
    else if strategy = "fastest" then
      ["Low load (" ++ toString lab.currentLoad ++ "%) and high uptime (" ++
        toString lab.uptime ++ "%)"]
    else if strategy = "highest-quality" then
      ["Highest quality rating (" ++ toString lab.quality ++ "/5 stars)"]
    else if strategy = "nearest" then
      ["Closest to your location"]
    else if strategy = "balanced" then
      ["Best overall balance of cost, quality, and availability"]
    else []
  let more :=
    (if lab.quality ≥ 4.5 then
      ["Excellent quality (" ++ toString lab.quality ++ "/5)"] else []) ++
    (if lab.uptime ≥ 99.5 then
      ["High reliability (" ++ toString lab.uptime ++ "% uptime)"] else []) ++
    (if 2 < lab.certifications.length then
      ["Multiple certifications: " ++ String.intercalate ", " lab.certifications]
    else [])
  String.intercalate ". " (base ++ more)

/-- `selectLab` (Router.ts lines 19-52).  Throws (→ `none`) when no lab
is available for the instrument or the filters empty the candidate set.
Alternatives are the first three other passing candidates in candidate
order (the candidate list itself is never re-sorted). -/
def selectLab (registry : List LabInfo) (dist : LabInfo → ℚ)
    (userLocation : Option (ℚ × ℚ)) (instrument : String)
    (routing : Option RoutingOptions) : Option LabSelection :=
  let candidates0 := getAvailableLabs registry instrument
  if candidates0.isEmpty then none
  else
    let candidates := applyFilters dist userLocation candidates0 routing
    if candidates.isEmpty then none
    else
      let strategy :=
        match routing with
        | none => "balanced"
        | some r => if r.strategy = "" then "balanced" else r.strategy
      match selectByStrategy dist userLocation candidates strategy with
      | none => none
      | some selected =>
        some
          { lab := selected
            score := calculateScore dist userLocation selected strategy
            reasoning := generateReasoning selected strategy
            alternatives := (candidates.filter (fun lab => lab.id ≠ selected.id)).take 3 }

/-- Stable ascending sort by fallback priority: the model of
`routing.fallback.sort((a, b) => a.priority - b.priority)`. -/
def sortFallback (l : List LabFallback) : List LabFallback :=
  sortAscBy LabFallback.priority l

/-- `tryFallback` (Router.ts lines 249-269).  `Array.prototype.sort`
sorts the caller's fallback array IN PLACE; the second component of the
returned pair is the state of the routing options after the call.  With
an absent or empty fallback list the function returns before sorting. -/
def tryFallback (registry : List LabInfo) (routing : Option RoutingOptions) :
    Option LabInfo × Option RoutingOptions :=
  match routing with
  | none => (none, none)
  | some r =>
    match r.fallback with
    | none => (none, some r)
    | some [] => (none, some r)
    | some (f :: fs) =>
      let sorted := sortFallback (f :: fs)
      let firstAvailable := sorted.findSome? fun fb =>
        match getLabById registry fb.lab with
        | none => none
        | some lab =>
          if lab.availability > 0 ∧ lab.currentLoad < 90 then some lab else none
      (firstAvailable, some { r with fallback := some sorted })

/-! ## Concrete catalog entries used by witnesses and counterexamples

Values mirror the seed catalog in Analysis.ts lines 182-268 and the
default compute tiers of part_003 (`initializeCostOptimizer`). -/

def mitLab : Lab :=
  { id := "mit-biolab", name := "MIT BioLab", location := "Boston, MA, USA"
    country := "US", quality := 5, pricing := [("dna-sequencer", 40)]
    certifications := ["ISO-9001", "CLIA", "CAP"], averageLoad := 45
    eta := [("dna-sequencer", "2h")] }

def stanfordLab : Lab :=
  { id := "stanford-lab", name := "Stanford BioLab", location := "Stanford, CA, USA"
    country := "US", quality := 4.5, pricing := [("dna-sequencer", 50)]
    certifications := ["ISO-9001", "CLIA"], averageLoad := 30
    eta := [("dna-sequencer", "4h")] }

def singaporeLab : Lab :=
  { id := "singapore-biolab", name := "Singapore BioLab", location := "Singapore"
    country := "SG", quality := 5, pricing := [("dna-sequencer", 30)]
    certifications := ["ISO-9001", "CLIA", "CAP", "NABL"], averageLoad := 15
    eta := [("dna-sequencer", "1h")] }

def bioGPT : AIModel :=
  { id := "bio-gpt", name := "BioGPT", perSample := 2, accuracy := 80
    minGPU := 1, minVRAM := 16 }

def stdTiers : List ComputeTier :=
  [ { name := "standard", gpu := 1, vram := 16, costPerMs := 0.004 }
  , { name := "performance", gpu := 4, vram := 32, costPerMs := 0.012 }
  , { name := "extreme", gpu := 8, vram := 64, costPerMs := 0.032 } ]

/-- A constraint set with every optional field absent. -/
def noConstraints (priority : String) : OptimizationConstraints :=
  { maxCost := none, minQuality := none, maxTime := none, priority := priority
    preferredLocations := none, requireCertifications := none }

def basicReq (samples : ℚ) (priority : String) : OptimizationRequest :=
  { instrument := "dna-sequencer", samples := samples, sampleType := none
    constraints := noConstraints priority, includeAlternatives := false
    includeWhatIf := false }

/-- Routing options whose fallback list is out of priority order. -/
def unsortedRouting : RoutingOptions :=
  { strategy := "balanced", maxCost := none, minQuality := none
    maxDistance := none, preferredLocations := none, excludeLabs := none
    requireCertifications := none
    fallback := some [{ lab := "lab-b", priority := 2 }, { lab := "lab-a", priority := 1 }] }

/-- Constraints that only set a preferred-locations list. -/
def sgPrefConstraints : OptimizationConstraints :=
  { noConstraints "balanced" with preferredLocations := some ["SG"] }

def labInfoA : LabInfo :=
  { id := "lab-a", name := "Lab A", location := "City A", country := "US"
    instruments := ["dna-sequencer"]
    pricing := { tier := "standard", instrumentRate := 1, computeRate := 0.01
                 aiRate := 10, storageRate := 0.01 }
    quality := 3, availability := 100, uptime := 99, currentLoad := 10
    coordinates := none, certifications := ["ISO-9001"] }

def labInfoB : LabInfo :=
  { labInfoA with id := "lab-b", name := "Lab B", quality := 4 }

def labInfoC : LabInfo :=
  { labInfoA with id := "lab-c", name := "Lab C", quality := 5 }

def hqRouting : RoutingOptions :=
  { strategy := "highest-quality", maxCost := none, minQuality := none
    maxDistance := none, preferredLocations := none, excludeLabs := none
    requireCertifications := none, fallback := none }

def dummySelection : LabSelection :=
  { lab := labInfoA, score := 0, reasoning := "", alternatives := [] }

/-- The MIT lab as the registry's LabInfo record (Analysis.ts lines
193-213). -/
def mitLabInfo : LabInfo :=
  { id := "mit-biolab", name := "MIT BioLab", location := "Boston, MA, USA"
    country := "US", instruments := ["dna-sequencer", "mass-spec", "nmr"]
    pricing := { tier := "performance", instrumentRate := 2, computeRate := 0.012
                 aiRate := 20, storageRate := 0.02 }
    quality := 5, availability := 95, uptime := 99.9, currentLoad := 45
    coordinates := some (42.3601, -71.0942)
    certifications := ["ISO-9001", "CLIA", "CAP"] }

/-- A request with no optional constraints set. -/
def unconstrainedReq (instrument : String) (samples : ℚ) (prio : String) :
    OptimizationRequest :=
  { instrument := instrument, samples := samples, sampleType := none
    constraints := noConstraints prio, includeAlternatives := false
    includeWhatIf := false }

def dummyEstimate : SavingsEstimate :=
  { worstCase := { instrument := 0, compute := 0, ai := 0, storage := 0
                   subtotal := 0, discount := 0, total := 0 }
    optimized := { instrument := 0, compute := 0, ai := 0, storage := 0
                   subtotal := 0, discount := 0, total := 0 }
    savings := { absolute := 0, percentage := 0 }
    recommendations := [] }

/-- The fallback list of `unsortedRouting`, out of priority order. -/
def fbList : List LabFallback :=
  [{ lab := "lab-b", priority := 2 }, { lab := "lab-a", priority := 1 }]

/-- Constraints that only set preferredLocations = ["MA"]. -/
def maPrefConstraints : OptimizationConstraints :=
  { noConstraints "balanced" with preferredLocations := some ["MA"] }

/-! ## Lemmas about the generic machinery -/

theorem insertDescBy_perm {α : Type} (key : α → ℚ) (x : α) (l : List α) :
    List.Perm (insertDescBy key x l) (x :: l) := by
  induction l with
  | nil => simp [insertDescBy]
  | cons y ys ih =>
    by_cases h : key x < key y
    · simp only [insertDescBy, if_pos h]
      exact (ih.cons y).trans (List.Perm.swap x y ys)
    · simp [insertDescBy, if_neg h]

theorem sortDescBy_perm {α : Type} (key : α → ℚ) (l : List α) :
    List.Perm (sortDescBy key l) l := by
  induction l with
  | nil => simp [sortDescBy]
  | cons x xs ih =>
    exact (insertDescBy_perm key x (sortDescBy key xs)).trans (ih.cons x)

theorem sortDescBy_eq_nil_iff {α : Type} (key : α → ℚ) (l : List α) :
    sortDescBy key l = [] ↔ l = [] := by
  constructor
  · intro h
    have hp := sortDescBy_perm key l
    rw [h] at hp
    exact hp.symm.eq_nil
  · intro h; subst h; rfl

theorem mem_sortDescBy {α : Type} {key : α → ℚ} {l : List α} {x : α}
    (h : x ∈ sortDescBy key l) : x ∈ l :=
  (sortDescBy_perm key l).mem_iff.mp h

theorem insertAscBy_perm {α : Type} (key : α → ℚ) (x : α) (l : List α) :
    List.Perm (insertAscBy key x l) (x :: l) := by
  induction l with
  | nil => simp [insertAscBy]
  | cons y ys ih =>
    by_cases h : key y < key x
    · simp only [insertAscBy, if_pos h]
      exact (ih.cons y).trans (List.Perm.swap x y ys)
    · simp [insertAscBy, if_neg h]

theorem sortAscBy_perm {α : Type} (key : α → ℚ) (l : List α) :
    List.Perm (sortAscBy key l) l := by
  induction l with
  | nil => simp [sortAscBy]
  | cons x xs ih =>
    exact (insertAscBy_perm key x (sortAscBy key xs)).trans (ih.cons x)

theorem pairwise_insertAscBy {α : Type} {key : α → ℚ} {x : α} {l : List α}
    (h : List.Pairwise (fun a b => key a ≤ key b) l) :
    List.Pairwise (fun a b => key a ≤ key b) (insertAscBy key x l) := by
  induction l with
  | nil => simp [insertAscBy]
  | cons y ys ih =>
    rcases List.pairwise_cons.mp h with ⟨hy, hys⟩
    by_cases hk : key y < key x
    · simp only [insertAscBy, if_pos hk]
      refine List.pairwise_cons.mpr ⟨?_, ih hys⟩
      intro z hz
      rcases List.mem_cons.mp ((insertAscBy_perm key x ys).mem_iff.mp hz) with rfl | hz
      · exact le_of_lt hk
      · exact hy z hz
    · simp only [insertAscBy, if_neg hk]
      refine List.pairwise_cons.mpr ⟨?_, h⟩
      intro z hz
      rcases List.mem_cons.mp hz with rfl | hz
      · exact le_of_not_lt hk
      · exact le_trans (le_of_not_lt hk) (hy z hz)

theorem sortAscBy_sorted {α : Type} (key : α → ℚ) (l : List α) :
    List.Pairwise (fun a b => key a ≤ key b) (sortAscBy key l) := by
  induction l with
  | nil => simp [sortAscBy]
  | cons x xs ih => exact pairwise_insertAscBy ih

theorem sortAscBy_eq_self {α : Type} {key : α → ℚ} {l : List α}
    (h : List.Pairwise (fun a b => key a ≤ key b) l) : sortAscBy key l = l := by
  induction l with
  | nil => rfl
  | cons x xs ih =>
    rcases List.pairwise_cons.mp h with ⟨hx, hxs⟩
    rw [sortAscBy, ih hxs]
    cases xs with
    | nil => rfl
    | cons y ys =>
      have : ¬ key y < key x := not_lt.mpr (hx y (List.mem_cons_self y ys))
      simp [insertAscBy, this]

/-- The result of the argmax fold used by `worstLab`/`worstAI` dominates
the seed and every element of the list. -/
theorem foldl_argmax_ge {α : Type} (key : α → ℚ) (x : α) (l : List α) :
    key x ≤ key (l.foldl (fun mx a => if key a > key mx then a else mx) x) ∧
    ∀ y ∈ l, key y ≤ key (l.foldl (fun mx a => if key a > key mx then a else mx) x) := by
  induction l generalizing x with
  | nil => simp
  | cons a as ih =>
    simp only [List.foldl_cons]
    by_cases h : key a > key x
    · rcases ih a with ⟨h1, h2⟩
      simp only [if_pos h]
      refine ⟨le_trans (le_of_lt h) h1, ?_⟩
      intro y hy
      rcases List.mem_cons.mp hy with rfl | hy
      · exact h1
      · exact h2 y hy
    · rcases ih x with ⟨h1, h2⟩
      simp only [if_neg h]
      refine ⟨h1, ?_⟩
      intro y hy
      rcases List.mem_cons.mp hy with rfl | hy
      · exact le_trans (le_of_not_lt h) h1
      · exact h2 y hy

/-- In a list that is pairwise ≤ on a key, the last element dominates
every member. -/
theorem pairwise_key_le_getLast {α : Type} {key : α → ℚ} {l : List α} {w : α}
    (hp : List.Pairwise (fun a b => key a ≤ key b) l)
    (hw : l.getLast? = some w) : ∀ t ∈ l, key t ≤ key w := by
  induction l with
  | nil => simp at hw
  | cons x xs ih =>
    rcases List.pairwise_cons.mp hp with ⟨hx, hxs⟩
    cases xs with
    | nil =>
      simp only [List.getLast?_singleton, Option.some.injEq] at hw
      subst hw
      intro t ht
      rcases List.mem_cons.mp ht with rfl | ht
      · exact le_refl _
      · simp at ht
    | cons y ys =>
      have hw2 : (y :: ys).getLast? = some w := by
        rw [List.getLast?_cons_cons] at hw
        exact hw
      intro t ht
      rcases List.mem_cons.mp ht with rfl | ht
      · exact le_trans (hx y (List.mem_cons_self y ys))
          (ih hxs hw2 y (List.mem_cons_self y ys))
      · exact ih hxs hw2 t ht

theorem startsWithL_iff (ps cs : List Char) :
    startsWithL ps cs = true ↔ ∃ r, cs = ps ++ r := by
  induction ps generalizing cs with
  | nil => simp [startsWithL]
  | cons p ps ih =>
    cases cs with
    | nil => simp [startsWithL]
    | cons c cs₀ =>
      simp only [startsWithL, Bool.and_eq_true, beq_iff_eq, ih, List.cons_append,
        List.cons.injEq]
      constructor
      · rintro ⟨hpc, r, hr⟩
        exact ⟨r, hpc.symm, hr⟩
      · rintro ⟨r, hcp, hr⟩
        exact ⟨hcp.symm, r, hr⟩

theorem containsSub_iff (ps cs : List Char) :
    containsSub ps cs = true ↔ ∃ l r, cs = l ++ (ps ++ r) := by
  induction cs with
  | nil =>
    simp only [containsSub, startsWithL_iff]
    constructor
    · rintro ⟨r, hr⟩
      exact ⟨[], r, hr⟩
    · rintro ⟨l, r, hr⟩
      rcases List.append_eq_nil.mp hr.symm with ⟨_, h2⟩
      exact ⟨r, by simp_all⟩
  | cons c cs₀ ih =>
    simp only [containsSub, Bool.or_eq_true, startsWithL_iff, ih]
    constructor
    · rintro (⟨r, hr⟩ | ⟨l, r, hr⟩)
      · exact ⟨[], r, by simpa using hr⟩
      · exact ⟨c :: l, r, by simp [hr]⟩
    · rintro ⟨l, r, hr⟩
      cases l with
      | nil => exact Or.inl ⟨r, by simpa using hr⟩
      | cons a l₀ =>
        simp only [List.cons_append, List.cons.injEq] at hr
        exact Or.inr ⟨l₀, r, hr.2⟩

/-- `strIncludes s sub` holds exactly when `sub` occurs contiguously in
`s` (stated over the character lists of the two strings). -/
theorem strIncludes_iff (s sub : String) :
    strIncludes s sub = true ↔ ∃ l r, s.toList = l ++ (sub.toList ++ r) :=
  containsSub_iff sub.toList s.toList

/-- The batch discount rate always lies in [0, 3/10]. -/
theorem calculateBatchDiscount_bounds (n : ℚ) :
    0 ≤ calculateBatchDiscount n ∧ calculateBatchDiscount n ≤ 3/10 := by
  unfold calculateBatchDiscount
  split_ifs <;> norm_num

/-! ## Characterization lemmas for the optimizer -/

theorem scoreCombinations_eq_nil_iff (labs : List Lab) (ais : List AIModel)
    (tier : ComputeTier) (i : String) (n : ℚ) (c : OptimizationConstraints) :
    scoreCombinations labs ais tier i n c = [] ↔ labs = [] ∨ ais = [] := by
  unfold scoreCombinations
  rw [sortDescBy_eq_nil_iff]
  constructor
  · intro h
    cases labs with
    | nil => exact Or.inl rfl
    | cons l ls =>
      cases ais with
      | nil => exact Or.inr rfl
      | cons a as₀ => simp at h
  · rintro (h | h) <;> subst h <;> simp

theorem mem_scoreCombinations {labs : List Lab} {ais : List AIModel}
    {tier : ComputeTier} {i : String} {n : ℚ} {c : OptimizationConstraints}
    {combo : Combo} (h : combo ∈ scoreCombinations labs ais tier i n c) :
    ∃ lab ∈ labs, ∃ m ∈ ais,
      combo =
        { lab := lab, aiModel := m, cost := comboCost tier i n lab m
          score := comboScore c i lab m (comboCost tier i n lab m) } := by
  unfold scoreCombinations at h
  rcases List.mem_flatMap.mp (mem_sortDescBy h) with ⟨lab, hlab, hm⟩
  rcases List.mem_map.mp hm with ⟨m, hm2, heq⟩
  exact ⟨lab, hlab, m, hm2, heq.symm⟩

theorem selectComputeTier_isSome {tiers : List ComputeTier}
    (c : OptimizationConstraints) (h3 : 3 ≤ tiers.length) :
    ∃ t, selectComputeTier tiers c = some t := by
  unfold selectComputeTier
  split_ifs
  · exact ⟨tiers.get ⟨0, by omega⟩, List.get?_eq_get (by omega)⟩
  · exact ⟨tiers.get ⟨2, by omega⟩, List.get?_eq_get (by omega)⟩
  · exact ⟨tiers.get ⟨1, by omega⟩, List.get?_eq_get (by omega)⟩

theorem selectComputeTier_mem {tiers : List ComputeTier}
    {c : OptimizationConstraints} {t : ComputeTier}
    (h : selectComputeTier tiers c = some t) : t ∈ tiers := by
  unfold selectComputeTier at h
  split_ifs at h <;> exact List.get?_mem h

/-- Inversion of a successful `optimize` call. -/
theorem optimize_eq_some {labs : List Lab} {ais : List AIModel}
    {tiers : List ComputeTier} {req : OptimizationRequest}
    {opt : OptimizationResult} (h : optimize labs ais tiers req = some opt) :
    ∃ tier best rest,
      selectComputeTier tiers req.constraints = some tier ∧
      scoreCombinations (filterLabs labs req.instrument req.constraints)
        (filterAIModels ais req.constraints) tier req.instrument req.samples
        req.constraints = best :: rest ∧
      opt = mkOptResult req tier best rest := by
  unfold optimize at h
  cases hsel : selectComputeTier tiers req.constraints with
  | none => rw [hsel] at h; simp at h
  | some tier =>
    rw [hsel] at h
    dsimp only at h
    cases hsc : scoreCombinations (filterLabs labs req.instrument req.constraints)
        (filterAIModels ais req.constraints) tier req.instrument req.samples
        req.constraints with
    | nil => rw [hsc] at h; simp at h
    | cons best rest =>
      rw [hsc] at h
      simp only [Option.some.injEq] at h
      exact ⟨tier, best, rest, rfl, hsc, h.symm⟩

/-- Counting lemma: in a list whose projections are pairwise distinct,
exactly one element projects like a given member. -/
theorem countP_proj_eq_one {α : Type} (f : α → String) {l : List α} {x : α}
    (hx : x ∈ l) (hnd : (l.map f).Nodup) :
    l.countP (fun a => f a == f x) = 1 := by
  have h1 : l.countP (fun a => f a == f x) = (l.map f).count (f x) := by
    rw [List.count, List.countP_map]
    rfl
  rw [h1]
  exact List.count_eq_one_of_mem hnd (List.mem_map_of_mem f hx)

/-! ## Claim C10 -/

/-- C10: In the Cost Optimizer a zero-valued constraint is treated as
absent: with `maxCost = 0` the provider-cost and model-cost criteria
eliminate no candidate, and with `minQuality = 0` the provider-quality
and model-accuracy criteria eliminate no candidate — the filtered sets
are the same as with the constraint absent. -/
theorem C10_zero_constraint_ignored (labs : List Lab) (ais : List AIModel)
    (i : String) (c : OptimizationConstraints) :
    filterLabs labs i { c with maxCost := some 0 } =
      filterLabs labs i { c with maxCost := none } ∧
    filterAIModels ais { c with maxCost := some 0 } =
      filterAIModels ais { c with maxCost := none } ∧
    filterLabs labs i { c with minQuality := some 0 } =
      filterLabs labs i { c with minQuality := none } ∧
    filterAIModels ais { c with minQuality := some 0 } =
      filterAIModels ais { c with minQuality := none } := by
  refine ⟨?_, ?_, ?_, ?_⟩
  · have h : labPasses i { c with maxCost := some 0 } =
        labPasses i { c with maxCost := none } := by
      funext lab
      simp [labPasses, optTruthy]
    rw [filterLabs, filterLabs, h]
  · have h : modelPasses { c with maxCost := some 0 } =
        modelPasses { c with maxCost := none } := by
      funext m
      simp [modelPasses, optTruthy]
    rw [filterAIModels, filterAIModels, h]
  · have h : labPasses i { c with minQuality := some 0 } =
        labPasses i { c with minQuality := none } := by
      funext lab
      simp [labPasses, optTruthy]
    rw [filterLabs, filterLabs, h]
  · have h : modelPasses { c with minQuality := some 0 } =
        modelPasses { c with minQuality := none } := by
      funext m
      simp [modelPasses, optTruthy]
    rw [filterAIModels, filterAIModels, h]

/-! ## Claim C2 -/

unseal Rat.add Rat.mul Rat.inv Rat.sub Rat.ofScientific in
/-- C2: the claim says `averageQuality` equals
(providerQuality + modelAccuracy/20)/2.  The code (CostOptimizer.ts line
115) skips the /20 normalization: on a catalog with one quality-5 lab
and one accuracy-80 model the returned value is (5 + 80)/2 = 42.5 — off
the 1-5 scale — where the claim demands (5 + 80/20)/2 = 4.5.  The same
file normalizes by /20 in its quality scoring (line 222) and in
generateAlternatives (line 281), so line 115 contradicts the code's own
convention. -/
theorem C2_averageQuality_not_normalized :
    (optimize [mitLab] [bioGPT] stdTiers (basicReq 5 "cost")).map
      (fun o => o.totals.averageQuality) = some (85/2) ∧
    (85/2 : ℚ) ≠ (mitLab.quality + bioGPT.accuracy / 20) / 2 := by
  constructor
  · decide
  · decide

/-! ## Claim C3 -/

unseal Rat.add Rat.mul Rat.inv Rat.sub Rat.ofScientific in
/-- C3 counterexample: at the sampleCount threshold 10 the discounted
cost does NOT strictly decrease even though the base cost is positive:
with basePrice 1, nine samples cost 9 and ten samples cost 10·0.9 = 9. -/
theorem C3_no_strict_decrease_at_10 :
    0 < (calculateBatchPricing "dna-sequencer" 9 1).baseCost ∧
    ¬ (calculateBatchPricing "dna-sequencer" 10 1).discountedCost <
        (calculateBatchPricing "dna-sequencer" 9 1).discountedCost := by
  constructor
  · decide
  · decide

/-- C3 amended: for a fixed per-unit base price p > 0, the batch
discountedCost is non-increasing at every threshold crossing and
strictly decreases at the 50, 100, 500 and 1000 crossings; at the 10
crossing it stays exactly equal (the 10% discount exactly offsets the
tenth sample).  The discount-rate table agrees with the optimizer's
`calculateBatchDiscount` at every sample count. -/
theorem C3_discount_monotonicity (i : String) (p : ℚ) (hp : 0 < p) :
    (calculateBatchPricing i 10 p).discountedCost =
      (calculateBatchPricing i 9 p).discountedCost ∧
    (calculateBatchPricing i 10 p).discountedCost ≤
      (calculateBatchPricing i 9 p).discountedCost ∧
    (calculateBatchPricing i 50 p).discountedCost <
      (calculateBatchPricing i 49 p).discountedCost ∧
    (calculateBatchPricing i 100 p).discountedCost <
      (calculateBatchPricing i 99 p).discountedCost ∧
    (calculateBatchPricing i 500 p).discountedCost <
      (calculateBatchPricing i 499 p).discountedCost ∧
    (calculateBatchPricing i 1000 p).discountedCost <
      (calculateBatchPricing i 999 p).discountedCost ∧
    (∀ n : ℚ, (calculateBatchPricing i n p).discountRate = calculateBatchDiscount n) := by
  refine ⟨?_, ?_, ?_, ?_, ?_, ?_, fun n => rfl⟩ <;>
  · simp only [calculateBatchPricing]
    norm_num
    linarith

/-! ## Claim C9 -/

unseal Rat.add Rat.mul Rat.inv Rat.sub Rat.ofScientific in
/-- C9 counterexample: `tryFallback` does not leave the caller-supplied
routing options unchanged — `routing.fallback.sort(...)` reorders the
fallback array in place, so after the call the options differ from what
the caller passed. -/
theorem C9_fallback_list_mutated :
    (tryFallback [] (some unsortedRouting)).2 ≠ some unsortedRouting := by
  decide

/-- C9 amended: the optimizer and router read the catalogs only, but
`tryFallback` reorders the caller's fallback list in place: after the
call the routing options hold that list stably sorted by ascending
priority — a permutation of the original that is unchanged exactly when
the original was already sorted. -/
theorem C9_tryFallback_effect (registry : List LabInfo) (r : RoutingOptions)
    (fb : List LabFallback) (hfb : r.fallback = some fb) :
    (tryFallback registry (some r)).2 =
      some { r with fallback := some (sortFallback fb) } ∧
    List.Perm (sortFallback fb) fb ∧
    List.Pairwise (fun a b => a.priority ≤ b.priority) (sortFallback fb) ∧
    (List.Pairwise (fun a b => a.priority ≤ b.priority) fb → sortFallback fb = fb) := by
  refine ⟨?_, sortAscBy_perm _ fb, sortAscBy_sorted _ fb, fun h => sortAscBy_eq_self h⟩
  cases fb with
  | nil =>
    rcases r with ⟨s, mc, mq, md, pl, ex, rc, fb0⟩
    simp only at hfb
    subst hfb
    simp [tryFallback, sortFallback, sortAscBy]
  | cons f fs =>
    simp only [tryFallback, hfb]

/-! ## Claim C4 -/

unseal Rat.add Rat.mul Rat.inv Rat.sub Rat.ofScientific in
/-- C4 counterexample: the Singapore lab's country code "SG" is a member
of preferredLocations = ["SG"], and the lab offers the instrument, yet
`filterLabs` rejects it: the code tests `lab.location.includes(loc)` on
the free-form location string "Singapore", which does not contain the
substring "SG". -/
theorem C4_country_membership_refuted :
    singaporeLab.country ∈ ["SG"] ∧
    priceOf singaporeLab "dna-sequencer" ≠ 0 ∧
    labPasses "dna-sequencer" sgPrefConstraints singaporeLab = false := by
  refine ⟨by decide, by decide, by decide⟩

/-- C4 amended: with only the location constraint set (non-empty list),
a provider passes `filterLabs` exactly when it offers the instrument and
SOME entry of preferredLocations occurs as a contiguous substring of the
provider's free-form location string (not when its country code is a
member of the list). -/
theorem C4_location_criterion_is_substring (lab : Lab) (i : String)
    (prefs : List String) (c : OptimizationConstraints)
    (hp : c.preferredLocations = some prefs) (hne : prefs ≠ [])
    (hmc : c.maxCost = none) (hmq : c.minQuality = none)
    (hrc : c.requireCertifications = none) :
    labPasses i c lab = true ↔
      (priceOf lab i ≠ 0 ∧
        ∃ loc ∈ prefs, ∃ l r, lab.location.toList = l ++ (loc.toList ++ r)) := by
  cases prefs with
  | nil => exact absurd rfl hne
  | cons p ps =>
    simp [labPasses, hp, hmc, hmq, hrc, optTruthy, List.any_eq_true, strIncludes_iff]

/-! ## Claims C7 and C8 -/

/-- Shared helper: with at least three compute tiers, `optimize`
succeeds exactly when both filtered sets are non-empty. -/
theorem optimize_isSome_iff (labs : List Lab) (ais : List AIModel)
    (tiers : List ComputeTier) (req : OptimizationRequest)
    (h3 : 3 ≤ tiers.length) :
    (optimize labs ais tiers req).isSome = true ↔
      (filterLabs labs req.instrument req.constraints ≠ [] ∧
       filterAIModels ais req.constraints ≠ []) := by
  rcases selectComputeTier_isSome req.constraints h3 with ⟨tier, htier⟩
  unfold optimize
  rw [htier]
  dsimp only
  cases hsc : scoreCombinations (filterLabs labs req.instrument req.constraints)
      (filterAIModels ais req.constraints) tier req.instrument req.samples
      req.constraints with
  | nil =>
    rw [scoreCombinations_eq_nil_iff] at hsc
    simp only [Option.isSome_none, Bool.false_eq_true, false_iff]
    tauto
  | cons best rest =>
    have hne : scoreCombinations (filterLabs labs req.instrument req.constraints)
        (filterAIModels ais req.constraints) tier req.instrument req.samples
        req.constraints ≠ [] := by
      rw [hsc]; simp
    rw [Ne, scoreCombinations_eq_nil_iff] at hne
    simp only [Option.isSome_some, true_iff]
    tauto

/-- C7: `optimize` is all-or-nothing — given the catalog's three compute
tiers, it fails (returns no result at all) exactly when the filtered
provider set or the filtered AI-model set is empty, and returns a result
whenever both are non-empty. -/
theorem C7_optimize_all_or_nothing (labs : List Lab) (ais : List AIModel)
    (tiers : List ComputeTier) (req : OptimizationRequest)
    (h3 : 3 ≤ tiers.length) :
    ((optimize labs ais tiers req = none) ↔
      (filterLabs labs req.instrument req.constraints = [] ∨
       filterAIModels ais req.constraints = [])) ∧
    ((optimize labs ais tiers req).isSome = true ↔
      (filterLabs labs req.instrument req.constraints ≠ [] ∧
       filterAIModels ais req.constraints ≠ [])) := by
  have h := optimize_isSome_iff labs ais tiers req h3
  constructor
  · rw [← Option.not_isSome_iff_eq_none, h]
    tauto
  · exact h

unseal Rat.add Rat.mul Rat.inv Rat.sub Rat.ofScientific in
theorem C7_witness :
    (optimize [mitLab] [bioGPT] stdTiers (basicReq 5 "cost")).isSome = true :=
  (C7_optimize_all_or_nothing [mitLab] [bioGPT] stdTiers (basicReq 5 "cost")
    (by decide)).2.mpr ⟨by decide, by decide⟩

/-- Helper: a non-empty candidate list always yields a strategy pick. -/
theorem selectByStrategy_isSome (dist : LabInfo → ℚ)
    (uloc : Option (ℚ × ℚ)) {labs : List LabInfo} (h : labs ≠ [])
    (strategy : String) :
    ∃ sel, selectByStrategy dist uloc labs strategy = some sel := by
  unfold selectByStrategy
  cases hs : sortDescBy Prod.snd
      (labs.map (fun lab => (lab, calculateScore dist uloc lab strategy))) with
  | nil =>
    rw [sortDescBy_eq_nil_iff, List.map_eq_nil_iff] at hs
    exact absurd hs h
  | cons p ps => exact ⟨p.1, rfl⟩

/-- Helper: an available supporting provider makes `selectLab` (with no
routing options) succeed. -/
theorem selectLab_isSome_of_available {registry : List LabInfo}
    (dist : LabInfo → ℚ) (uloc : Option (ℚ × ℚ)) {instrument : String}
    (h0 : getAvailableLabs registry instrument ≠ []) :
    (selectLab registry dist uloc instrument none).isSome = true := by
  rcases selectByStrategy_isSome dist uloc h0 "balanced" with ⟨sel, hsel⟩
  unfold selectLab
  dsimp only
  rw [if_neg (by simpa [List.isEmpty_iff] using h0)]
  have happ : applyFilters dist uloc (getAvailableLabs registry instrument) none =
      getAvailableLabs registry instrument := rfl
  rw [happ, if_neg (by simpa [List.isEmpty_iff] using h0), hsel]
  simp

/-- C8 amended: the router half holds for every catalog state — an
available supporting provider makes `selectLab` succeed with no
options.  The optimizer half holds once the claim's omitted provisos
are added: the AI-model catalog must be non-empty and the three compute
tiers present (`C8_optimize_needs_models` refutes the claim without
them); availability and load are not read by `optimize` at all. -/
theorem C8_availability_implies_result :
    (∀ (registry : List LabInfo) (dist : LabInfo → ℚ)
        (uloc : Option (ℚ × ℚ)) (instrument : String),
      (∃ lab ∈ registry, instrument ∈ lab.instruments ∧
        0 < lab.availability ∧ lab.currentLoad < 90) →
      (selectLab registry dist uloc instrument none).isSome = true) ∧
    (∀ (labs : List Lab) (ais : List AIModel) (tiers : List ComputeTier)
        (instrument : String) (samples : ℚ) (prio : String),
      (∃ lab ∈ labs, priceOf lab instrument ≠ 0) → ais ≠ [] →
      3 ≤ tiers.length →
      (optimize labs ais tiers (unconstrainedReq instrument samples prio)).isSome
        = true) := by
  constructor
  · rintro registry dist uloc instrument ⟨lab, hmem, hsup, hav, hload⟩
    apply selectLab_isSome_of_available
    have hmem2 : lab ∈ getAvailableLabs registry instrument := by
      unfold getAvailableLabs getLabsByInstrument getAllLabs
      simp only [List.mem_filter, Bool.and_eq_true, decide_eq_true_eq]
      exact ⟨⟨hmem, List.elem_eq_true_of_mem hsup⟩, hav, hload⟩
    intro hnil
    rw [hnil] at hmem2
    simp at hmem2
  · rintro labs ais tiers instrument samples prio ⟨lab, hmem, hprice⟩ hais h3
    rw [optimize_isSome_iff labs ais tiers _ h3]
    constructor
    · have hlab : lab ∈ filterLabs labs instrument (noConstraints prio) := by
        unfold filterLabs
        rw [List.mem_filter]
        refine ⟨hmem, ?_⟩
        simp [labPasses, noConstraints, optTruthy, hprice]
      intro h
      rw [show (unconstrainedReq instrument samples prio).instrument = instrument
        from rfl, show (unconstrainedReq instrument samples prio).constraints =
        noConstraints prio from rfl] at h
      rw [h] at hlab
      simp at hlab
    · have : filterAIModels ais (noConstraints prio) = ais := by
        unfold filterAIModels
        apply List.filter_eq_self.mpr
        intro m _
        simp [modelPasses, noConstraints, optTruthy]
      intro h
      rw [show (unconstrainedReq instrument samples prio).constraints =
        noConstraints prio from rfl] at h
      rw [this] at h
      exact hais h

unseal Rat.add Rat.mul Rat.inv Rat.sub Rat.ofScientific in
/-- C8 counterexample: a catalog state with an available provider
supporting the instrument on which the router succeeds but `optimize`
returns no result — the AI-model catalog is empty, a case the claim's
hypotheses allow. -/
theorem C8_optimize_needs_models :
    (selectLab [mitLabInfo] (fun _ => 0) none "dna-sequencer" none).isSome = true ∧
    0 < mitLabInfo.availability ∧ mitLabInfo.currentLoad < 90 ∧
    "dna-sequencer" ∈ mitLabInfo.instruments ∧
    priceOf mitLab "dna-sequencer" ≠ 0 ∧
    optimize [mitLab] [] stdTiers (unconstrainedReq "dna-sequencer" 100 "balanced")
      = none := by
  refine ⟨by decide, by decide, by decide, by decide, by decide, by decide⟩

unseal Rat.add Rat.mul Rat.inv Rat.sub Rat.ofScientific in
theorem C8_witness :
    (selectLab [mitLabInfo] (fun _ => 0) none "dna-sequencer" none).isSome = true ∧
    (optimize [mitLab] [bioGPT] stdTiers
      (unconstrainedReq "dna-sequencer" 100 "balanced")).isSome = true :=
  ⟨C8_availability_implies_result.1 [mitLabInfo] (fun _ => 0) none "dna-sequencer"
      ⟨mitLabInfo, by decide, by decide, by decide, by decide⟩,
   C8_availability_implies_result.2 [mitLab] [bioGPT] stdTiers "dna-sequencer" 100
      "balanced" ⟨mitLab, by decide, by decide⟩ (by decide) (by decide)⟩

/-! ## Claim C6 -/

unseal Rat.add Rat.mul Rat.inv Rat.sub Rat.ofScientific in
/-- C6 counterexample: under the highest-quality strategy on a catalog
listed in ascending quality, the returned alternatives are [Lab A, Lab
B] in catalog order, yet Lab A scores strictly BELOW Lab B — the list
is not in descending strategy-score order. -/
theorem C6_alternatives_not_score_sorted :
    (selectLab [labInfoA, labInfoB, labInfoC] (fun _ => 0) none "dna-sequencer"
        (some hqRouting)).map (fun s => s.alternatives.map LabInfo.id) =
      some ["lab-a", "lab-b"] ∧
    calculateScore (fun _ => 0) none labInfoA "highest-quality" <
      calculateScore (fun _ => 0) none labInfoB "highest-quality" := by
  refine ⟨by decide, by decide⟩

/-- C6 amended: every successful selection returns at most 3
alternatives, each a passing candidate different from the primary pick,
listed as a sublist of the filtered candidate list — i.e. in catalog
order, not in descending score order. -/
theorem C6_alternatives_structure (registry : List LabInfo)
    (dist : LabInfo → ℚ) (uloc : Option (ℚ × ℚ)) (instrument : String)
    (routing : Option RoutingOptions) (sel : LabSelection)
    (h : selectLab registry dist uloc instrument routing = some sel) :
    sel.alternatives.length ≤ 3 ∧
    List.Sublist sel.alternatives
      (applyFilters dist uloc (getAvailableLabs registry instrument) routing) ∧
    ∀ lab ∈ sel.alternatives,
      lab ∈ applyFilters dist uloc (getAvailableLabs registry instrument) routing ∧
      lab.id ≠ sel.lab.id := by
  unfold selectLab at h
  dsimp only at h
  by_cases h0 : (getAvailableLabs registry instrument).isEmpty = true
  · rw [if_pos h0] at h
    simp at h
  · rw [if_neg h0] at h
    by_cases h1 : (applyFilters dist uloc (getAvailableLabs registry instrument)
        routing).isEmpty = true
    · rw [if_pos h1] at h
      simp at h
    · rw [if_neg h1] at h
      generalize hstrat : (match routing with
        | none => "balanced"
        | some r => if r.strategy = "" then "balanced" else r.strategy) = strat at h
      cases hsel : selectByStrategy dist uloc
          (applyFilters dist uloc (getAvailableLabs registry instrument) routing)
          strat with
      | none => rw [hsel] at h; simp at h
      | some selected =>
        rw [hsel] at h
        simp only [Option.some.injEq] at h
        subst h
        refine ⟨?_, ?_, ?_⟩
        · exact le_trans (List.length_take_le 3 _) (le_refl 3)
        · exact List.Sublist.trans (List.take_sublist 3 _) (List.filter_sublist _)
        · intro lab hlab
          have hmem := (List.filter_sublist _).mem
            (List.mem_of_mem_take hlab)
          rcases List.mem_filter.mp ((List.take_sublist 3 _).mem hlab) with ⟨hm, hid⟩
          exact ⟨hm, by simpa using hid⟩

unseal Rat.add Rat.mul Rat.inv Rat.sub Rat.ofScientific in
theorem C6_witness :
    ((selectLab [labInfoA, labInfoB, labInfoC] (fun _ => 0) none "dna-sequencer"
        (some hqRouting)).getD dummySelection).alternatives.length ≤ 3 ∧
    List.Sublist
      ((selectLab [labInfoA, labInfoB, labInfoC] (fun _ => 0) none "dna-sequencer"
        (some hqRouting)).getD dummySelection).alternatives
      (applyFilters (fun _ => 0) none
        (getAvailableLabs [labInfoA, labInfoB, labInfoC] "dna-sequencer")
        (some hqRouting)) :=
  have h : selectLab [labInfoA, labInfoB, labInfoC] (fun _ => 0) none
      "dna-sequencer" (some hqRouting) =
      some ((selectLab [labInfoA, labInfoB, labInfoC] (fun _ => 0) none
        "dna-sequencer" (some hqRouting)).getD dummySelection) := by decide
  ⟨(C6_alternatives_structure _ _ _ _ _ _ h).1,
   (C6_alternatives_structure _ _ _ _ _ _ h).2.1⟩

/-! ## Claim C5 -/

theorem labPasses_price_ne_zero {i : String} {c : OptimizationConstraints}
    {lab : Lab} (h : labPasses i c lab = true) : priceOf lab i ≠ 0 := by
  simp only [labPasses, Bool.and_eq_true, decide_eq_true_eq] at h
  tauto

unseal Rat.add Rat.mul Rat.inv Rat.sub Rat.ofScientific in
/-- C5 counterexample: with the catalog listing the $50 provider before
the $40 provider, the Laboratory table of `comparePrices` comes back in
catalog order [50, 40], which is not ascending by cost. -/
theorem C5_tables_not_sorted :
    (comparePrices [stanfordLab, mitLab] [bioGPT] stdTiers (basicReq 1 "cost")).map
      (fun cps => (cps.headD { metric := "", options := [] }).options.map
        PriceOption.cost) = some [50, 40] ∧
    ¬ (50 : ℚ) ≤ 40 := by
  refine ⟨by decide, by decide⟩

/-- C5 amended: for every request on which `optimize` succeeds (and
catalogs with distinct ids/tier names, as the id-keyed registry map
guarantees), `comparePrices` returns exactly three tables whose rows
follow CATALOG order — providers filtered to those offering the
instrument, all AI models, all compute tiers — and in each table exactly
one row is marked selected: the optimizer's chosen provider, model and
tier.  The tables are not sorted by cost (see the counterexample). -/
theorem C5_comparePrices_structure (labs : List Lab) (ais : List AIModel)
    (tiers : List ComputeTier) (req : OptimizationRequest)
    (opt : OptimizationResult) (cps : List PriceComparison)
    (hopt : optimize labs ais tiers req = some opt)
    (hcmp : comparePrices labs ais tiers req = some cps)
    (hnd1 : (labs.map Lab.id).Nodup) (hnd2 : (ais.map AIModel.id).Nodup)
    (hnd3 : (tiers.map ComputeTier.name).Nodup) :
    ∃ t1 t2 t3, cps = [t1, t2, t3] ∧
      t1.options.map PriceOption.name =
        (labs.filter (fun l => decide (priceOf l req.instrument ≠ 0))).map Lab.name ∧
      t2.options.map PriceOption.name = ais.map AIModel.name ∧
      t3.options.map PriceOption.name = tiers.map ComputeTier.name ∧
      t1.options.countP PriceOption.selected = 1 ∧
      t2.options.countP PriceOption.selected = 1 ∧
      t3.options.countP PriceOption.selected = 1 := by
  rcases optimize_eq_some hopt with ⟨tier, best, rest, htier, hsc, hdef⟩
  have hbest : best ∈ scoreCombinations (filterLabs labs req.instrument req.constraints)
      (filterAIModels ais req.constraints) tier req.instrument req.samples
      req.constraints := by
    rw [hsc]
    exact List.mem_cons_self best rest
  rcases mem_scoreCombinations hbest with ⟨lab, hlab, m, hm, hcombo⟩
  rcases List.mem_filter.mp hlab with ⟨hlabmem, hlabpass⟩
  rcases List.mem_filter.mp hm with ⟨hmmem, _⟩
  have hlabq : lab ∈ labs.filter (fun l => decide (priceOf l req.instrument ≠ 0)) :=
    List.mem_filter.mpr ⟨hlabmem, by
      simp only [decide_eq_true_eq]
      exact labPasses_price_ne_zero hlabpass⟩
  have hoptlab : opt.lab.id = lab.id := by
    rw [hdef, hcombo]; rfl
  have hoptai : opt.aiModel.id = m.id := by
    rw [hdef, hcombo]; rfl
  have hopttier : opt.compute.tier = tier.name := by
    rw [hdef]; rfl
  unfold comparePrices at hcmp
  rw [hopt] at hcmp
  simp only [Option.map_some', Option.some.injEq] at hcmp
  subst hcmp
  refine ⟨_, _, _, rfl, ?_, ?_, ?_, ?_, ?_, ?_⟩
  · simp
  · simp
  · simp
  · rw [List.countP_map]
    have hcount := countP_proj_eq_one Lab.id hlabq
      (hnd1.sublist ((List.filter_sublist labs).map Lab.id))
    rw [hoptlab]
    exact hcount
  · rw [List.countP_map]
    rw [hoptai]
    exact countP_proj_eq_one AIModel.id hmmem hnd2
  · rw [List.countP_map]
    rw [hopttier]
    exact countP_proj_eq_one ComputeTier.name (selectComputeTier_mem htier) hnd3

unseal Rat.add Rat.mul Rat.inv Rat.sub Rat.ofScientific in
theorem C5_witness :
    ∃ t1 t2 t3,
      (comparePrices [stanfordLab, mitLab] [bioGPT] stdTiers (basicReq 1 "cost")).getD []
        = [t1, t2, t3] ∧
      t1.options.map PriceOption.name =
        (([stanfordLab, mitLab]).filter
          (fun l => decide (priceOf l "dna-sequencer" ≠ 0))).map Lab.name ∧
      t2.options.map PriceOption.name = [bioGPT].map AIModel.name ∧
      t3.options.map PriceOption.name = stdTiers.map ComputeTier.name ∧
      t1.options.countP PriceOption.selected = 1 ∧
      t2.options.countP PriceOption.selected = 1 ∧
      t3.options.countP PriceOption.selected = 1 := by
  have hopt : optimize [stanfordLab, mitLab] [bioGPT] stdTiers (basicReq 1 "cost") =
      some ((optimize [stanfordLab, mitLab] [bioGPT] stdTiers
        (basicReq 1 "cost")).getD (mkOptResult (basicReq 1 "cost")
          { name := "", gpu := 0, vram := 0, costPerMs := 0 }
          { lab := mitLab, aiModel := bioGPT, cost := 0, score := 0 } [])) := by
    decide
  have hcmp : comparePrices [stanfordLab, mitLab] [bioGPT] stdTiers (basicReq 1 "cost") =
      some ((comparePrices [stanfordLab, mitLab] [bioGPT] stdTiers
        (basicReq 1 "cost")).getD []) := by
    decide
  exact C5_comparePrices_structure [stanfordLab, mitLab] [bioGPT] stdTiers
    (basicReq 1 "cost") _ _ hopt hcmp (by decide) (by decide) (by decide)

/-! ## Claim C1 -/

theorem worstLab_spec {labs : List Lab} {i : String} {wl : Lab}
    (h : worstLab labs i = some wl) : ∀ l ∈ labs, priceOf l i ≤ priceOf wl i := by
  cases labs with
  | nil => simp [worstLab] at h
  | cons l0 ls =>
    simp only [worstLab, Option.some.injEq] at h
    subst h
    intro l hl
    rcases List.mem_cons.mp hl with rfl | hl
    · exact (foldl_argmax_ge (fun lab => priceOf lab i) l ls).1
    · exact (foldl_argmax_ge (fun lab => priceOf lab i) l0 ls).2 l hl

theorem worstAI_spec {ais : List AIModel} {wa : AIModel}
    (h : worstAI ais = some wa) : ∀ m ∈ ais, m.perSample ≤ wa.perSample := by
  cases ais with
  | nil => simp [worstAI] at h
  | cons a0 rest =>
    simp only [worstAI, Option.some.injEq] at h
    subst h
    intro m hm
    rcases List.mem_cons.mp hm with rfl | hm
    · exact (foldl_argmax_ge AIModel.perSample m rest).1
    · exact (foldl_argmax_ge AIModel.perSample a0 rest).2 m hm

/-- C1: for every feasible request (the estimate exists, i.e. the
optimizer found a best pair) with a non-negative sample count and the
catalog invariant that the compute tiers are listed in ascending
cost-per-ms order, `estimateSavings` reports non-negative absolute
savings: the synthetic worst case never costs less than the optimizer's
discounted result. -/
theorem C1_estimateSavings_nonneg (labs : List Lab) (ais : List AIModel)
    (tiers : List ComputeTier) (req : OptimizationRequest)
    (est : SavingsEstimate)
    (h : estimateSavings labs ais tiers req = some est)
    (hn : 0 ≤ req.samples)
    (ht : List.Pairwise (fun a b : ComputeTier => a.costPerMs ≤ b.costPerMs) tiers) :
    0 ≤ est.savings.absolute := by
  unfold estimateSavings at h
  cases hwl : worstLab labs req.instrument with
  | none => rw [hwl] at h; simp at h
  | some wl =>
  cases hwa : worstAI ais with
  | none => rw [hwl, hwa] at h; simp at h
  | some wa =>
  cases hwt : tiers.getLast? with
  | none => rw [hwl, hwa, hwt] at h; simp at h
  | some wt =>
  rw [hwl, hwa, hwt] at h
  dsimp only at h
  cases hopt : optimize labs ais tiers req with
  | none => rw [hopt] at h; simp at h
  | some opt =>
  rw [hopt] at h
  simp only [Option.some.injEq] at h
  subst h
  rcases optimize_eq_some hopt with ⟨tier, best, rest, htier, hsc, hdef⟩
  have hdisc : opt.totals.discountedCost =
      best.cost - best.cost * calculateBatchDiscount req.samples := by
    rw [hdef]; rfl
  have hbest : best ∈ scoreCombinations
      (filterLabs labs req.instrument req.constraints)
      (filterAIModels ais req.constraints) tier req.instrument req.samples
      req.constraints := by
    rw [hsc]
    exact List.mem_cons_self best rest
  rcases mem_scoreCombinations hbest with ⟨lab, hlab, m, hm, hcombo⟩
  have hcost : best.cost = comboCost tier req.instrument req.samples lab m := by
    rw [hcombo]
  have h1 : priceOf lab req.instrument ≤ priceOf wl req.instrument :=
    worstLab_spec hwl lab (List.mem_filter.mp hlab).1
  have h2 : m.perSample ≤ wa.perSample :=
    worstAI_spec hwa m (List.mem_filter.mp hm).1
  have h3 : tier.costPerMs ≤ wt.costPerMs :=
    pairwise_key_le_getLast ht hwt tier (selectComputeTier_mem htier)
  have hdb := calculateBatchDiscount_bounds req.samples
  show 0 ≤ (calculateTotalCost wl wa wt req.instrument req.samples).total -
    opt.totals.discountedCost
  rw [hdisc, hcost]
  unfold calculateTotalCost comboCost
  dsimp only
  have h2m : m.perSample * req.samples ≤ wa.perSample * req.samples :=
    mul_le_mul_of_nonneg_right h2 hn
  have h3m : tier.costPerMs * 3000 * req.samples ≤
      wt.costPerMs * 3000 * req.samples := by
    have h30 : (0 : ℚ) ≤ 3000 * req.samples := by linarith
    calc tier.costPerMs * 3000 * req.samples
        = tier.costPerMs * (3000 * req.samples) := by ring
      _ ≤ wt.costPerMs * (3000 * req.samples) :=
          mul_le_mul_of_nonneg_right h3 h30
      _ = wt.costPerMs * 3000 * req.samples := by ring
  have hSB : priceOf lab req.instrument + m.perSample * req.samples +
      tier.costPerMs * 3000 * req.samples + 0.01 * req.samples ≤
      priceOf wl req.instrument + wt.costPerMs * 3000 * req.samples +
      wa.perSample * req.samples + 0.01 * req.samples := by
    linarith
  nlinarith [mul_nonneg (sub_nonneg.mpr hSB)
    (show (0 : ℚ) ≤ 1 - calculateBatchDiscount req.samples by linarith [hdb.2])]

unseal Rat.add Rat.mul Rat.inv Rat.sub Rat.ofScientific in
theorem C1_witness :
    0 ≤ ((estimateSavings [stanfordLab, mitLab] [bioGPT] stdTiers
      (basicReq 5 "cost")).getD dummyEstimate).savings.absolute :=
  C1_estimateSavings_nonneg [stanfordLab, mitLab] [bioGPT] stdTiers
    (basicReq 5 "cost") _ (by decide) (by decide) (by decide)

/-! ## Witnesses for the hypothesis-bearing amended theorems -/

theorem C3_witness :
    (calculateBatchPricing "dna-sequencer" 10 1).discountedCost =
      (calculateBatchPricing "dna-sequencer" 9 1).discountedCost ∧
    (calculateBatchPricing "dna-sequencer" 50 1).discountedCost <
      (calculateBatchPricing "dna-sequencer" 49 1).discountedCost :=
  ⟨(C3_discount_monotonicity "dna-sequencer" 1 (by norm_num)).1,
   (C3_discount_monotonicity "dna-sequencer" 1 (by norm_num)).2.2.1⟩

unseal Rat.add Rat.mul Rat.inv Rat.sub Rat.ofScientific in
theorem C4_witness :
    labPasses "dna-sequencer" maPrefConstraints mitLab = true :=
  (C4_location_criterion_is_substring mitLab "dna-sequencer" ["MA"]
      maPrefConstraints rfl (by decide) rfl rfl rfl).mpr
    ⟨by decide, "MA", by decide,
      "Boston, ".toList, ", USA".toList, by decide⟩

theorem C9_witness :
    (tryFallback [] (some unsortedRouting)).2 =
      some { unsortedRouting with fallback := some (sortFallback fbList) } ∧
    List.Perm (sortFallback fbList) fbList :=
  ⟨(C9_tryFallback_effect [] unsortedRouting fbList rfl).1,
   (C9_tryFallback_effect [] unsortedRouting fbList rfl).2.1⟩

end Lab402
